import Mathlib

/-!
Verification of `examples/src/main/python/ml/estimator_transformer_param_example.py`.

The script is glue code over the external ML library (pyspark): it builds a
4-row training DataFrame, configures a LogisticRegression estimator, fits a
model, builds a parameter override map out of Python dictionaries, fits a
second model under the overrides, transforms a 3-row test DataFrame and
prints selected columns.  The pyspark library itself is not part of the
source tree given here, so its operations (estimator construction, fit,
transform, extractParamMap, DataFrame select) are modelled from the spec;
the Python dictionary operations of lines 56-63 and the concrete datasets
of lines 34-38 and 72-75 are embedded directly from the source.
-/

namespace SparkExample

/-- Parameter identities of the LogisticRegression estimator that the script
touches: `lr.maxIter`, `lr.regParam`, `lr.threshold`, `lr.probabilityCol`. -/
inductive Param
  | maxIter
  | regParam
  | threshold
  | probabilityCol
deriving DecidableEq, Repr

/-- Values stored in a parameter map: the script stores Python ints (20, 30),
floats (0.1, 0.55; embedded as exact rationals) and strings ("myProbability"). -/
inductive PValue
  | int (n : Int)
  | num (q : Rat)
  | str (s : String)
deriving DecidableEq, Repr

/-- A Python dictionary with `Param` keys, embedded as an insertion-ordered
association list whose keys are kept distinct by the write operation. -/
abbrev PDict := List (Param × PValue)

/-- Python `d[k] = v`: overwrite the value in place when the key is present,
otherwise append the new entry at the end. -/
def dictSet : PDict → Param → PValue → PDict
  | [], k, v => [(k, v)]
  | (k0, v0) :: rest, k, v =>
    if k0 = k then (k, v) :: rest else (k0, v0) :: dictSet rest k v

/-- Python `d.update(e)`: write every entry of `e` into `d`, in order. -/
def dictUpdate (d : PDict) (e : PDict) : PDict :=
  e.foldl (fun acc kv => dictSet acc kv.1 kv.2) d

/-- Python `d.copy()`: a shallow copy; in this pure embedding the value itself. -/
def dictCopy (d : PDict) : PDict := d

/-- Python `d[k]` / `d.get(k)`: the value stored under `k`, if any. -/
def dictGet : PDict → Param → Option PValue
  | [], _ => none
  | (k0, v0) :: rest, k => if k0 = k then some v0 else dictGet rest k

/-- The keys of a dictionary, in insertion order. -/
def dictKeys (d : PDict) : List Param := d.map Prod.fst

/-- Modelled from the spec: the external library's estimator is a "named
configuration object holding hyperparameters (max-iterations: integer,
regularization-parameter: float, threshold: float, probability-column-name:
string) with library-defined defaults". -/
structure Estimator where
  maxIter : Int
  regParam : Rat
  threshold : Rat
  probabilityCol : String
deriving DecidableEq, Repr

/-- Modelled from the spec: the LogisticRegression constructor of line 41,
taking the two hyperparameters the script sets and filling the rest with the
library defaults; the source comment on lines 79-80 names "probability" as
the usual (default) probability column, and 0.5 is the library default
decision threshold. -/
def LogisticRegression (maxIter : Int) (regParam : Rat) : Estimator :=
  { maxIter := maxIter, regParam := regParam, threshold := 1/2,
    probabilityCol := "probability" }

/-- Line 41: `lr = LogisticRegression(maxIter=10, regParam=0.01)`. -/
def lr : Estimator := LogisticRegression 10 (1/100)

/-- The estimator's own stored parameter values, as a parameter map. -/
def estParams (e : Estimator) : PDict :=
  [(Param.maxIter, PValue.int e.maxIter),
   (Param.regParam, PValue.num e.regParam),
   (Param.threshold, PValue.num e.threshold),
   (Param.probabilityCol, PValue.str e.probabilityCol)]

/-- A cell of a DataFrame row: a numeric scalar (labels, predictions,
probabilities) or a dense feature vector, built by `Vectors.dense`. -/
inductive Cell
  | num (q : Rat)
  | vec (v : List Rat)
deriving DecidableEq, Repr

/-- A DataFrame row: named columns in order. -/
abbrev Row := List (String × Cell)

/-- Modelled from the spec: a "Dataset" is an "ordered sequence of labeled
records with named columns". -/
structure DataFrame where
  rows : List Row
deriving DecidableEq, Repr

/-- The cell stored under a column name in a row, if any. -/
def lookupCol (c : String) : Row → Option Cell
  | [] => none
  | (c0, v) :: rest => if c0 = c then some v else lookupCol c rest

/-- Modelled from the spec: `sqlContext.createDataFrame` over a list of
(label, features) tuples with the two column names of the script. -/
def createDataFrame (data : List (Rat × List Rat)) (labelCol featuresCol : String) :
    DataFrame :=
  ⟨data.map fun lf => [(labelCol, Cell.num lf.1), (featuresCol, Cell.vec lf.2)]⟩

/-- Lines 34-38: the 4-row training DataFrame. -/
def training : DataFrame :=
  createDataFrame
    [(1, [0, 11/10, 1/10]),
     (0, [2, 1, -1]),
     (0, [2, 13/10, 1]),
     (1, [0, 12/10, -1/2])] "label" "features"

/-- Lines 72-75: the 3-row test DataFrame. -/
def test : DataFrame :=
  createDataFrame
    [(1, [-1, 15/10, 13/10]),
     (0, [3, 2, -1/10]),
     (1, [0, 22/10, -15/10])] "label" "features"

/-- The feature vector of a row (the `features` column). -/
def rowFeatures (row : Row) : List Rat :=
  match lookupCol "features" row with
  | some (Cell.vec v) => v
  | _ => []

/-- The label of a row (the `label` column). -/
def rowLabel (row : Row) : Rat :=
  match lookupCol "label" row with
  | some (Cell.num q) => q
  | _ => 0

/-- Numeric value of a parameter in a map, with a fallback default. -/
def paramNum (params : PDict) (k : Param) (dflt : Rat) : Rat :=
  match dictGet params k with
  | some (PValue.num q) => q
  | _ => dflt

/-- The probability output column name configured in a parameter map;
"probability" is the library default named by the source comment on line 80. -/
def probColName (params : PDict) : String :=
  match dictGet params Param.probabilityCol with
  | some (PValue.str s) => s
  | _ => "probability"

/-- Componentwise sum of two vectors. -/
def addVec (a b : List Rat) : List Rat := List.zipWith (fun x y => x + y) a b

/-- Dot product of two vectors. -/
def dot (a b : List Rat) : Rat := (List.zipWith (fun x y => x * y) a b).sum

/-- Sum of a list of vectors. -/
def sumVecs : List (List Rat) → List Rat
  | [] => []
  | [v] => v
  | v :: rest => addVec v (sumVecs rest)

/-- Modelled from the spec: the numeric fitting algorithm lives inside the
external library and is out of scope ("All actual engineering — model
fitting ... lives inside the external ML framework"); the spec only demands
that it be a deterministic function of the resolved parameters and the
training data.  We model the fitted coefficients as one concrete such
function: the regularization-damped sum of signed feature vectors. -/
def train (params : PDict) (df : DataFrame) : List Rat :=
  (sumVecs (df.rows.map fun r =>
      (rowFeatures r).map fun x => (2 * rowLabel r - 1) * x)).map
    fun x => x / (1 + paramNum params Param.regParam 0)

/-- Modelled from the spec: a "Model (fitted transformer)" is "produced by
applying an estimator to a dataset; carries a snapshot of the parameter
values used at fit time". -/
structure Model where
  paramMap : PDict
  weights : List Rat
deriving DecidableEq, Repr

/-- Modelled from the spec: `fit(estimator, dataset, overrides?) -> model`;
"overrides (if supplied) take precedence over the estimator's own configured
values for that single call only, without mutating the estimator".  An
absent overrides argument is the empty map. -/
def fit (e : Estimator) (df : DataFrame) (overrides : PDict) : Model :=
  let resolved := dictUpdate (estParams e) overrides
  { paramMap := resolved, weights := train resolved df }

/-- Modelled from the spec: `extractParamMap` reports "the parameters it
used during fit()" — the snapshot carried by the model. -/
def extractParamMap (m : Model) : PDict := m.paramMap

/-- The score of one input row, a deterministic function of the model and
the row's feature vector only (source comment, line 78: "transform will
only use the 'features' column"). -/
def predictRow (m : Model) (features : List Rat) : Rat × Rat :=
  let p := dot m.weights features
  (p, if paramNum m.paramMap Param.threshold (1/2) < p then 1 else 0)

/-- The prediction-related columns transform appends to one row: the
probability column, under the model's configured name, and `prediction`. -/
def addedCols (m : Model) (row : Row) : Row :=
  let pr := predictRow m (rowFeatures row)
  [(probColName m.paramMap, Cell.num pr.1), ("prediction", Cell.num pr.2)]

/-- Modelled from the spec: `transform(model, dataset) -> dataset'` "appends
prediction-related columns; uses only the columns declared as input
features; output column names follow the model's configured naming". -/
def transform (m : Model) (df : DataFrame) : DataFrame :=
  ⟨df.rows.map fun row => row ++ addedCols m row⟩

/-- Modelled from the spec: `DataFrame.select` keeps the named columns, in
the given order. -/
def select (df : DataFrame) (cols : List String) : DataFrame :=
  ⟨df.rows.map fun row => cols.filterMap fun c => (lookupCol c row).map ((c, ·))⟩

/-- Line 46: `model1 = lr.fit(training)` (no override map supplied). -/
def model1 : Model := fit lr training []

/-- Lines 56-57: `paramMap = \x7blr.maxIter: 20\x7d` then
`paramMap[lr.maxIter] = 30`, overwriting the original maxIter. -/
def paramMapStep2 : PDict := dictSet (dictSet [] Param.maxIter (PValue.int 20))
  Param.maxIter (PValue.int 30)

/-- Line 58: `paramMap.update(...)` with regParam 0.1 and threshold 0.55. -/
def paramMap : PDict :=
  dictUpdate paramMapStep2
    [(Param.regParam, PValue.num (1/10)), (Param.threshold, PValue.num (11/20))]

/-- Line 61: the second override map, renaming the probability column. -/
def paramMap2 : PDict := [(Param.probabilityCol, PValue.str "myProbability")]

/-- Lines 62-63: `paramMapCombined = paramMap.copy()` then
`paramMapCombined.update(paramMap2)`. -/
def paramMapCombined : PDict := dictUpdate (dictCopy paramMap) paramMap2

/-- Line 67: `model2 = lr.fit(training, paramMapCombined)`. -/
def model2 : Model := fit lr training paramMapCombined

/-- Line 81: `prediction = model2.transform(test)`. -/
def prediction : DataFrame := transform model2 test

/-- Line 82: the four selected output columns. -/
def selected : DataFrame :=
  select prediction ["features", "label", "myProbability", "prediction"]

/-- Lines 83-84: `selected.collect()` yields the rows printed one per line. -/
def collected : List Row := selected.rows

/-- Observable top-level events of the script: acquiring the external compute
context (`SparkContext(...)`, line 29), writing a line to standard output, and
releasing the context (`sc.stop()`, line 87). -/
inductive Event
  | acquireContext
  | printOut (desc : String)
  | releaseContext
deriving DecidableEq, Repr

/-- The event trace of the `__main__` block, in source order: context
acquisition (line 29), the prints of lines 43, 52-53, 68-69, one print per
collected row (lines 83-84), and the context release (line 87).  Print
payloads are summarised by short descriptions; stdout contents are not at
issue in the lifecycle claim. -/
def mainTrace : List Event :=
  [Event.acquireContext,
   Event.printOut "LogisticRegression parameters",
   Event.printOut "Model 1 was fit using parameters",
   Event.printOut "model1 extractParamMap",
   Event.printOut "Model 2 was fit using parameters",
   Event.printOut "model2 extractParamMap"]
  ++ collected.map (fun _ => Event.printOut "row")
  ++ [Event.releaseContext]

/-- Modelled from the spec: direct script execution with "no flags, no
arguments, exit code implicitly 0 on normal completion"; running the script
produces the event trace and the process exit code. -/
def runMain : List Event × Nat := (mainTrace, 0)

/-- A copy of the test data in which every label is flipped but every feature
vector is kept; used to exercise the noninterference of `transform` with the
label column. -/
def testRelabelled : DataFrame :=
  createDataFrame
    [(0, [-1, 15/10, 13/10]),
     (1, [3, 2, -1/10]),
     (0, [0, 22/10, -15/10])] "label" "features"

/-- The columns `transform` appends to a row depend on the row only through
its `features` column. -/
lemma addedCols_congr (m : Model) (r1 r2 : Row)
    (h : lookupCol "features" r1 = lookupCol "features" r2) :
    addedCols m r1 = addedCols m r2 := by
  simp only [addedCols, rowFeatures, h]

/-- Rowwise version of `addedCols_congr` over whole lists of rows. -/
lemma map_addedCols_congr (m : Model) : ∀ l1 l2 : List Row,
    l1.map (lookupCol "features") = l2.map (lookupCol "features") →
    l1.map (addedCols m) = l2.map (addedCols m) := by
  intro l1
  induction l1 with
  | nil =>
    intro l2 h
    cases l2 with
    | nil => rfl
    | cons b t => simp at h
  | cons a t ih =>
    intro l2 h
    cases l2 with
    | nil => simp at h
    | cons b t2 =>
      simp only [List.map_cons, List.cons.injEq] at h ⊢
      exact ⟨addedCols_congr m a b h.1, ih t2 h.2⟩

/-- Claim C1: fitting under the combined override map and extracting the
model's parameter map reports exactly the overriding values — max-iterations
30 (after the successive overrides 20 then 30), regularization 0.1, threshold
0.55, probability column "myProbability" — and, for every overridden key, the
override rather than the estimator's stored value (e.g. maxIter 10). -/
theorem C1_extractParamMap_reports_overrides :
    dictGet (extractParamMap model2) Param.maxIter = some (PValue.int 30) ∧
    dictGet (extractParamMap model2) Param.regParam = some (PValue.num (1/10)) ∧
    dictGet (extractParamMap model2) Param.threshold = some (PValue.num (11/20)) ∧
    dictGet (extractParamMap model2) Param.probabilityCol
      = some (PValue.str "myProbability") ∧
    dictGet (estParams lr) Param.maxIter = some (PValue.int 10) ∧
    ∀ k, k ∈ dictKeys paramMapCombined →
      dictGet (extractParamMap model2) k = dictGet paramMapCombined k := by
  refine ⟨rfl, rfl, rfl, rfl, rfl, ?_⟩
  intro k _
  cases k <;> rfl

/-- Witness for C1 at the concrete overridden key `maxIter`. -/
theorem C1_extractParamMap_reports_overrides_witness :
    Param.maxIter ∈ dictKeys paramMapCombined ∧
    dictGet (extractParamMap model2) Param.maxIter
      = dictGet paramMapCombined Param.maxIter :=
  ⟨by decide,
   C1_extractParamMap_reports_overrides.2.2.2.2.2 Param.maxIter (by decide)⟩

/-- Claim C2: the combined override map built by lines 56-63 has exactly four
(distinct) keys, and each key holds the last value written to it: maxIter 30
(not the first write 20), regParam 0.1, threshold 0.55, probabilityCol
"myProbability". -/
theorem C2_paramMapCombined_last_write_wins :
    (dictKeys paramMapCombined).length = 4 ∧
    (dictKeys paramMapCombined).Nodup ∧
    dictGet paramMapCombined Param.maxIter = some (PValue.int 30) ∧
    dictGet paramMapCombined Param.regParam = some (PValue.num (1/10)) ∧
    dictGet paramMapCombined Param.threshold = some (PValue.num (11/20)) ∧
    dictGet paramMapCombined Param.probabilityCol
      = some (PValue.str "myProbability") :=
  ⟨rfl, by decide, rfl, rfl, rfl, rfl⟩

/-- Claim C3: passing an override map to a fit call does not mutate the
estimator: `lr` still holds its originally configured maxIter 10 and regParam
0.01, and re-running fit with the unmodified estimator and no overrides
yields exactly `model1`, whose parameter map is the estimator's own stored
values, untouched by the previously built `paramMapCombined`. -/
theorem C3_fit_leaves_estimator_unchanged :
    lr = LogisticRegression 10 (1/100) ∧
    lr.maxIter = 10 ∧
    lr.regParam = 1/100 ∧
    fit lr training [] = model1 ∧
    extractParamMap (fit lr training []) = estParams lr ∧
    dictGet (extractParamMap model1) Param.maxIter = some (PValue.int 10) ∧
    dictGet (extractParamMap model1) Param.regParam = some (PValue.num (1/100)) :=
  ⟨rfl, rfl, rfl, rfl, rfl, rfl, rfl⟩

/-- Claim C4: transforming the 3-row test set with `model2` yields exactly 3
rows; each row retains its original `features` and `label` cells unchanged,
carries a `myProbability` column and a `prediction` column, and has no column
under the default name `probability`. -/
theorem C4_transform_output_shape :
    prediction.rows.length = 3 ∧
    prediction.rows.map (lookupCol "features") = test.rows.map (lookupCol "features") ∧
    prediction.rows.map (lookupCol "label") = test.rows.map (lookupCol "label") ∧
    (prediction.rows.all fun r =>
      (lookupCol "myProbability" r).isSome && (lookupCol "prediction" r).isSome
        && (lookupCol "probability" r).isNone) = true :=
  ⟨rfl, rfl, rfl, rfl⟩

/-- Claim C5: `transform` uses only the `features` column: for any model and
any two input datasets that agree row-for-row on the `features` column, the
prediction-related columns appended by `transform` are identical, whatever
the `label` columns hold. -/
theorem C5_transform_uses_only_features (m : Model) (df1 df2 : DataFrame)
    (h : df1.rows.map (lookupCol "features") = df2.rows.map (lookupCol "features")) :
    df1.rows.map (addedCols m) = df2.rows.map (addedCols m) :=
  map_addedCols_congr m df1.rows df2.rows h

/-- Witness for C5: the test set and its label-flipped copy get identical
appended columns from `model2`. -/
theorem C5_transform_uses_only_features_witness :
    test.rows.map (lookupCol "features")
      = testRelabelled.rows.map (lookupCol "features") ∧
    test.rows.map (addedCols model2) = testRelabelled.rows.map (addedCols model2) :=
  ⟨rfl, C5_transform_uses_only_features model2 test testRelabelled rfl⟩

/-- Claim C6: `fit` and `transform` are deterministic: equal estimators,
training data and override maps give models with equal parameter maps, and
equal models and input data give equal transform outputs. -/
theorem C6_fit_transform_deterministic (e1 e2 : Estimator) (d1 d2 : DataFrame)
    (o1 o2 : PDict) (m1 m2 : Model) (t1 t2 : DataFrame)
    (he : e1 = e2) (hd : d1 = d2) (ho : o1 = o2) (hm : m1 = m2) (ht : t1 = t2) :
    extractParamMap (fit e1 d1 o1) = extractParamMap (fit e2 d2 o2) ∧
    transform m1 t1 = transform m2 t2 := by
  subst he hd ho hm ht
  exact ⟨rfl, rfl⟩

/-- Witness for C6 at the script's own inputs. -/
theorem C6_fit_transform_deterministic_witness :
    extractParamMap (fit lr training paramMapCombined)
      = extractParamMap (fit lr training paramMapCombined) ∧
    transform model2 test = transform model2 test :=
  C6_fit_transform_deterministic lr lr training training paramMapCombined
    paramMapCombined model2 model2 test test rfl rfl rfl rfl rfl

/-- Claim C7: the external compute context is acquired exactly once, as the
first event of the run, and released exactly once, as the last event — so no
operation follows the release on the normal path — and the exit code of a
normal completion is 0. -/
theorem C7_context_lifecycle :
    mainTrace.count Event.acquireContext = 1 ∧
    mainTrace.count Event.releaseContext = 1 ∧
    mainTrace.head? = some Event.acquireContext ∧
    mainTrace.getLast? = some Event.releaseContext ∧
    runMain.2 = 0 :=
  ⟨rfl, rfl, rfl, rfl, rfl⟩

/-- Claim C8: building the combined map by copy-then-update leaves both input
maps unchanged: `paramMap` still holds exactly its three entries (maxIter 30,
regParam 0.1, threshold 0.55) and no probability-column entry, `paramMap2`
still holds exactly its single entry, and the copy taken equals the
original. -/
theorem C8_combine_preserves_inputs :
    dictKeys paramMap = [Param.maxIter, Param.regParam, Param.threshold] ∧
    dictGet paramMap Param.maxIter = some (PValue.int 30) ∧
    dictGet paramMap Param.regParam = some (PValue.num (1/10)) ∧
    dictGet paramMap Param.threshold = some (PValue.num (11/20)) ∧
    dictGet paramMap Param.probabilityCol = none ∧
    paramMap2 = [(Param.probabilityCol, PValue.str "myProbability")] ∧
    paramMapCombined = dictUpdate (dictCopy paramMap) paramMap2 ∧
    dictCopy paramMap = paramMap :=
  ⟨rfl, rfl, rfl, rfl, rfl, rfl, rfl, rfl⟩

/-- Claim C9: every row of the 4-row training set and of the 3-row test set
follows the two-column schema (label, features), has a label that is 0 or 1,
and a dense feature vector of exactly 3 components. -/
theorem C9_dataset_schema_invariant :
    training.rows.length = 4 ∧
    test.rows.length = 3 ∧
    (∀ i, (h : i < training.rows.length) →
      (training.rows.get ⟨i, h⟩).map Prod.fst = ["label", "features"] ∧
      (rowLabel (training.rows.get ⟨i, h⟩) = 0 ∨ rowLabel (training.rows.get ⟨i, h⟩) = 1) ∧
      (rowFeatures (training.rows.get ⟨i, h⟩)).length = 3) ∧
    (∀ i, (h : i < test.rows.length) →
      (test.rows.get ⟨i, h⟩).map Prod.fst = ["label", "features"] ∧
      (rowLabel (test.rows.get ⟨i, h⟩) = 0 ∨ rowLabel (test.rows.get ⟨i, h⟩) = 1) ∧
      (rowFeatures (test.rows.get ⟨i, h⟩)).length = 3) := by
  refine ⟨rfl, rfl, ?_, ?_⟩
  · intro i h
    have h4 : i < 4 := h
    interval_cases i
    · exact ⟨rfl, Or.inr rfl, rfl⟩
    · exact ⟨rfl, Or.inl rfl, rfl⟩
    · exact ⟨rfl, Or.inl rfl, rfl⟩
    · exact ⟨rfl, Or.inr rfl, rfl⟩
  · intro i h
    have h3 : i < 3 := h
    interval_cases i
    · exact ⟨rfl, Or.inr rfl, rfl⟩
    · exact ⟨rfl, Or.inl rfl, rfl⟩
    · exact ⟨rfl, Or.inr rfl, rfl⟩

/-- Witness for C9 at the first training row. -/
theorem C9_dataset_schema_invariant_witness :
    (training.rows.get ⟨0, by decide⟩).map Prod.fst = ["label", "features"] ∧
    (rowLabel (training.rows.get ⟨0, by decide⟩) = 0 ∨
      rowLabel (training.rows.get ⟨0, by decide⟩) = 1) ∧
    (rowFeatures (training.rows.get ⟨0, by decide⟩)).length = 3 :=
  C9_dataset_schema_invariant.2.2.1 0 (by decide)

/-- Claim C10: the displayed output is exactly the 3 test rows, in the order
the test set was constructed (their features and labels match the test set
row-for-row), and every displayed row exposes exactly the columns features,
label, myProbability, prediction, in that order and no others. -/
theorem C10_selected_rows :
    collected.length = 3 ∧
    collected.map (fun r => r.map Prod.fst)
      = List.replicate 3 ["features", "label", "myProbability", "prediction"] ∧
    collected.map (lookupCol "features") = test.rows.map (lookupCol "features") ∧
    collected.map (lookupCol "label") = test.rows.map (lookupCol "label") :=
  ⟨rfl, rfl, rfl, rfl⟩

end SparkExample
